import Mathlib

/-!
Shallow embedding of `src/firebase_admin/project_config_mgt.py` (Firebase
project configuration management module) and proofs about its observable
behaviour.

Python values that flow through this module (JSON-decoded response bodies,
arguments of the public functions) are embedded as the inductive type
`PyVal`.  Python dicts are association lists, which preserves insertion
order exactly as CPython dicts do (relevant for the update-mask order).
Exceptions are embedded with `Except PyError`.

External collaborators of the module (the `_auth_utils` helpers, the JSON
HTTP transport, `auth.Client`, `MultiFactorConfig`) are not part of the
source tree; they are taken as parameters of the embedded operations or,
where the claims depend on their contract, modelled from the spec with an
explicit doc comment.
-/

namespace ProjectConfigMgt

/-- Embedded Python value: the subset of Python values this module touches
(None, strings, integers, and dicts with string keys in insertion order). -/
inductive PyVal where
  | none : PyVal
  | str (s : String) : PyVal
  | int (n : Int) : PyVal
  | dict (entries : List (String × PyVal)) : PyVal

/-- Python truthiness (`bool(v)`) for the embedded values: `None` is falsy,
a string is truthy iff non-empty, an integer iff non-zero, a dict iff
non-empty. -/
def PyVal.truthy : PyVal → Bool
  | .none => false
  | .str s => !s.isEmpty
  | .int n => n != 0
  | .dict es => !es.isEmpty

/-- Whether the value is a Python `str` (`isinstance(v, str)`). -/
def PyVal.isStr : PyVal → Bool
  | .str _ => true
  | _ => false

/-- Whether the value is a Python `dict` (`isinstance(v, dict)`). -/
def PyVal.isDict : PyVal → Bool
  | .dict _ => true
  | _ => false

/-- Python `str(v)`, as used by `'...{0}...'.format(v)` in the error
messages of the module.  Faithful for None, strings and integers; the
rendering of dicts is abbreviated (the claims never mention message text
for dict inputs). -/
def PyVal.pystr : PyVal → String
  | .none => "None"
  | .str s => s
  | .int n => toString n
  | .dict _ => "\x7b...\x7d"

/-- Key membership in an embedded dict entry list (`'k' in data`). -/
def dictContains (entries : List (String × PyVal)) (k : String) : Bool :=
  entries.any (fun e => e.fst == k)

/-- Python `dict.get(k)` on an embedded dict entry list: the value of the
first entry with the key, else `None`. -/
def dictGet (entries : List (String × PyVal)) (k : String) : PyVal :=
  match entries with
  | [] => PyVal.none
  | (k2, v) :: rest => if k2 == k then v else dictGet rest k

/-- Embedded Python exceptions raised or propagated by the module:
`ValueError`, `ProjectNotFoundError` and the generic `FirebaseError`, each
with its message. -/
inductive PyError where
  | valueError (msg : String) : PyError
  | projectNotFound (msg : String) : PyError
  | firebaseError (msg : String) : PyError
deriving DecidableEq, Repr

/-- Modelled from the spec: `MultiFactorConfig` lives in the external
`multi_factor_config_mgt` collaborator (not under the source tree); the
spec says `mfa` decodes the nested configuration field into a structured
value object, so the model wraps the decoded field. -/
structure MultiFactorConfig where
  data : PyVal

/-- The `Project` value object: an immutable view over the decoded
response record (`self._data = data`). -/
structure Project where
  data : List (String × PyVal)

/-- Embeds `Project.__init__`: raises `ValueError` if the input is not a
dict, then raises `ValueError` if the dict lacks the key `name`, else
stores the record. -/
def Project.init (data : PyVal) : Except PyError Project :=
  match data with
  | PyVal.dict entries =>
      if dictContains entries "name" then
        Except.ok { data := entries }
      else
        Except.error (PyError.valueError "Project response missing required keys.")
  | v =>
      Except.error (PyError.valueError
        ("Invalid data argument in Project constructor: " ++ v.pystr))

/-- Embeds the `Project.project_id` property: `self._data.get('name')`. -/
def Project.project_id (p : Project) : PyVal :=
  dictGet p.data "name"

/-- Embeds the `Project.mfa` property: reads `multiFactorConfig` from the
record; if the field is truthy, wraps it in a `MultiFactorConfig`, else
returns `None`. -/
def Project.mfa (p : Project) : Option MultiFactorConfig :=
  let d := dictGet p.data "multiFactorConfig"
  if d.truthy then
    some { data := d }
  else
    Option.none

/-- Modelled from the spec: `auth.Client` lives in the external `auth`
collaborator (not under the source tree).  The spec says an instance is a
client object bound to one specific project ID, constructed fresh on every
cache miss; `objId` models Python object identity (each construction
yields a new object, so differing `objId` means distinct instances). -/
structure AuthClient where
  objId : Nat
  project_id : String
deriving DecidableEq, Repr

/-- State of a `_ProjectManagementService` instance relevant to the
claims: the `project_clients` mapping (an insertion-ordered dict from
project ID to `auth.Client`) and the next fresh object identity used when
an `auth.Client` is constructed.  The HTTP client, app handle and lock
object are set in `__init__` and never reassigned; the HTTP transport is
passed to the operations as a parameter instead. -/
structure ServiceState where
  project_clients : List (String × AuthClient)
  nextObjId : Nat
deriving DecidableEq, Repr

/-- Lookup in the `project_clients` dict (`project_id in
self.project_clients` and `self.project_clients[project_id]`). -/
def lookupClient : List (String × AuthClient) → String → Option AuthClient
  | [], _ => Option.none
  | (k, c) :: rest, s => if k = s then some c else lookupClient rest s

/-- Embeds `_ProjectManagementService.auth_for_project`: raises
`ValueError` unless `project_id` is a non-empty string
(`not isinstance(project_id, str) or not project_id`); then, holding
`self.lock` for the whole check-then-insert below (one critical section),
returns the cached client on a hit, else constructs a fresh `auth.Client`
scoped to the ID, inserts it into the mapping and returns it. -/
def auth_for_project (st : ServiceState) (project_id : PyVal) :
    Except PyError (AuthClient × ServiceState) :=
  match project_id with
  | PyVal.str s =>
      if s.isEmpty then
        Except.error (PyError.valueError
          ("Invalid project ID: " ++ s ++ ". Project ID must be a non-empty string."))
      else
        match lookupClient st.project_clients s with
        | some client => Except.ok (client, st)
        | Option.none =>
            let client : AuthClient := { objId := st.nextObjId, project_id := s }
            Except.ok (client,
              { project_clients := st.project_clients ++ [(s, client)],
                nextObjId := st.nextObjId + 1 })
  | v =>
      Except.error (PyError.valueError
        ("Invalid project ID: " ++ v.pystr ++ ". Project ID must be a non-empty string."))

/-- An HTTP request as handed to the JSON transport client
(`self.client.body(method, url=..., json=..., params=...)`). -/
structure Request where
  method : String
  url : String
  json : Option PyVal
  params : Option String

/-- A transport-level failure (`requests.exceptions.RequestException`),
identified by its detail. -/
structure TransportError where
  detail : String
deriving DecidableEq, Repr

/-- Embeds `_ProjectManagementService.get_project`: issues one GET request
with empty relative URL and no parameters; on transport failure raises the
domain error produced by the external `_auth_utils.handle_auth_backend_error`
collaborator; on success converts the payload via the external
`_auth_utils.convertProjectAuthPayloadToUser` collaborator, prints the
converted body to standard output, and constructs the `Project`.  The
result triple is (requests issued, values printed to stdout in order,
returned value or raised error). -/
def get_project
    (transport : Request → Except TransportError PyVal)
    (handle_auth_backend_error : TransportError → PyError)
    (convertProjectAuthPayloadToUser : PyVal → PyVal) :
    List Request × List PyVal × Except PyError Project :=
  let req : Request :=
    { method := "get", url := "", json := Option.none, params := Option.none }
  match transport req with
  | Except.error err => ([req], [], Except.error (handle_auth_backend_error err))
  | Except.ok body =>
      let body2 := convertProjectAuthPayloadToUser body
      ([req], [body2], Project.init body2)

/-- Modelled from the spec: `_auth_utils.build_update_mask` is an external
collaborator (not under the source tree); the spec says the mask lists
exactly the top-level keys present in the payload, in payload key
order. -/
def build_update_mask (payload : List (String × PyVal)) : List String :=
  payload.map Prod.fst

/-- Embeds `_ProjectManagementService.update_project`: builds the payload
dict, validating a supplied `mfa` via the external
`_auth_utils.validate_mfa_config` collaborator and storing the validated
value under key `mfa`; raises `ValueError` if the payload is empty; else
joins the update mask with commas, issues one PATCH request with the JSON
payload and `updateMask=<mask>` as query parameter, and handles failure
and success exactly as `get_project` does.  The result pair is (requests
issued, returned value or raised error). -/
def update_project
    (transport : Request → Except TransportError PyVal)
    (handle_auth_backend_error : TransportError → PyError)
    (convertProjectAuthPayloadToUser : PyVal → PyVal)
    (validate_mfa_config : PyVal → Except PyError PyVal)
    (mfa : Option PyVal) :
    List Request × Except PyError Project :=
  match (match mfa with
         | Option.none => Except.ok ([] : List (String × PyVal))
         | some v => (validate_mfa_config v).map (fun v2 => [("mfa", v2)])) with
  | Except.error err => ([], Except.error err)
  | Except.ok payload =>
      if payload.isEmpty then
        ([], Except.error
          (PyError.valueError "At least one parameter must be specified for update."))
      else
        let update_mask := String.intercalate "," (build_update_mask payload)
        let params := "updateMask=" ++ update_mask
        let req : Request :=
          { method := "patch", url := "", json := some (PyVal.dict payload),
            params := some params }
        match transport req with
        | Except.error err => ([req], Except.error (handle_auth_backend_error err))
        | Except.ok body =>
            let body2 := convertProjectAuthPayloadToUser body
            ([req], Project.init body2)

/-- One operation invoked on a `_ProjectManagementService` instance, used
to state what an arbitrary operation does to the client mapping. -/
inductive ServiceOp where
  | authFor (project_id : PyVal) : ServiceOp
  | getProj : ServiceOp
  | updateProj (mfa : Option PyVal) : ServiceOp

/-- Effect of one operation on the service state: `auth_for_project` may
insert into the mapping (and on an invalid argument raises, leaving the
state unchanged); `get_project` and `update_project` never read or write
`project_clients` nor construct auth clients, so they leave the state
unchanged. -/
def stepState (st : ServiceState) : ServiceOp → ServiceState
  | ServiceOp.authFor pid =>
      match auth_for_project st pid with
      | Except.ok (_, st2) => st2
      | Except.error _ => st
  | ServiceOp.getProj => st
  | ServiceOp.updateProj _ => st

/-- Runs a sequence of service operations from a state. -/
def runOps (st : ServiceState) (ops : List ServiceOp) : ServiceState :=
  ops.foldl stepState st

/-- Runs `n` calls of `auth_for_project` with the same `project_id`, one
after the other, collecting each result.  The whole check-then-insert of
`auth_for_project` runs under the service mutex, so any interleaving of
`n` concurrent callers is equivalent to this sequential composition of the
critical sections in some order; with an identical argument every order
gives the same run. -/
def runRepeated (st : ServiceState) (pid : PyVal) :
    Nat → List (Except PyError AuthClient) × ServiceState
  | 0 => ([], st)
  | n + 1 =>
      match auth_for_project st pid with
      | Except.ok (c, st2) =>
          let r := runRepeated st2 pid n
          (Except.ok c :: r.fst, r.snd)
      | Except.error e =>
          let r := runRepeated st pid n
          (Except.error e :: r.fst, r.snd)

/-- State invariant of the service: every cached client is scoped to the
project ID it is cached under and carries an object identity below the
next fresh one. -/
def WFState (st : ServiceState) : Prop :=
  ∀ s c, lookupClient st.project_clients s = some c →
    c.project_id = s ∧ c.objId < st.nextObjId

theorem lookupClient_append_some {l l2 : List (String × AuthClient)} {s : String}
    {c : AuthClient} (h : lookupClient l s = some c) :
    lookupClient (l ++ l2) s = some c := by
  induction l with
  | nil => simp [lookupClient] at h
  | cons e rest ih =>
      obtain ⟨k, c2⟩ := e
      by_cases hk : k = s
      · simpa [lookupClient, hk] using h
      · simp only [lookupClient, hk, if_false, List.cons_append] at h ⊢
        exact ih h

theorem lookupClient_append_none {l l2 : List (String × AuthClient)} {s : String}
    (h : lookupClient l s = Option.none) :
    lookupClient (l ++ l2) s = lookupClient l2 s := by
  induction l with
  | nil => simp [lookupClient]
  | cons e rest ih =>
      obtain ⟨k, c2⟩ := e
      by_cases hk : k = s
      · simp [lookupClient, hk] at h
      · simp only [lookupClient, hk, if_false] at h
        simp only [List.cons_append, lookupClient, hk, if_false]
        exact ih h

theorem lookupClient_eq_some_split {l l2 : List (String × AuthClient)} {s : String}
    {c : AuthClient} (h : lookupClient (l ++ l2) s = some c) :
    lookupClient l s = some c ∨
      (lookupClient l s = Option.none ∧ lookupClient l2 s = some c) := by
  cases hl : lookupClient l s with
  | some c2 =>
      left
      rw [lookupClient_append_some hl] at h
      exact h
  | none =>
      right
      rw [lookupClient_append_none hl] at h
      exact ⟨rfl, h⟩

theorem auth_for_project_hit {st : ServiceState} {s : String} {c : AuthClient}
    (hs : s.isEmpty = false) (h : lookupClient st.project_clients s = some c) :
    auth_for_project st (PyVal.str s) = Except.ok (c, st) := by
  simp [auth_for_project, hs, h]

theorem auth_for_project_miss {st : ServiceState} {s : String}
    (hs : s.isEmpty = false) (h : lookupClient st.project_clients s = Option.none) :
    auth_for_project st (PyVal.str s)
      = Except.ok ({ objId := st.nextObjId, project_id := s },
          { project_clients :=
              st.project_clients ++ [(s, { objId := st.nextObjId, project_id := s })],
            nextObjId := st.nextObjId + 1 }) := by
  simp [auth_for_project, hs, h]

theorem WFState_insert {st : ServiceState} {s : String}
    (hW : WFState st) (_hl : lookupClient st.project_clients s = Option.none) :
    WFState { project_clients :=
                st.project_clients ++ [(s, { objId := st.nextObjId, project_id := s })],
              nextObjId := st.nextObjId + 1 } := by
  intro s3 c3 h3
  rcases lookupClient_eq_some_split h3 with h4 | ⟨_, h5⟩
  · obtain ⟨hp, ho⟩ := hW s3 c3 h4
    exact ⟨hp, Nat.lt_succ_of_lt ho⟩
  · by_cases hk : s = s3
    · subst hk
      simp [lookupClient] at h5
      subst h5
      exact ⟨rfl, Nat.lt_succ_self _⟩
    · simp [lookupClient, hk] at h5

theorem auth_for_project_ok_wf {st st2 : ServiceState} {s : String} {c : AuthClient}
    (hW : WFState st) (h : auth_for_project st (PyVal.str s) = Except.ok (c, st2)) :
    c.project_id = s ∧ WFState st2 := by
  by_cases hse : s.isEmpty
  · simp [auth_for_project, hse] at h
  · rw [Bool.not_eq_true] at hse
    cases hl : lookupClient st.project_clients s with
    | some c0 =>
        rw [auth_for_project_hit hse hl] at h
        simp only [Except.ok.injEq, Prod.mk.injEq] at h
        obtain ⟨h1, h2⟩ := h
        subst h1; subst h2
        exact ⟨(hW s c0 hl).1, hW⟩
    | none =>
        rw [auth_for_project_miss hse hl] at h
        simp only [Except.ok.injEq, Prod.mk.injEq] at h
        obtain ⟨h1, h2⟩ := h
        subst h1; subst h2
        exact ⟨rfl, WFState_insert hW hl⟩

theorem stepState_preserves_lookup {st : ServiceState} {s : String} {c : AuthClient}
    (op : ServiceOp) (h : lookupClient st.project_clients s = some c) :
    lookupClient (stepState st op).project_clients s = some c := by
  cases op with
  | authFor pid =>
      cases pid with
      | str s2 =>
          by_cases h2 : s2.isEmpty
          · simp [stepState, auth_for_project, h2, h]
          · rw [Bool.not_eq_true] at h2
            cases hl : lookupClient st.project_clients s2 with
            | some c2 => simp [stepState, auth_for_project_hit h2 hl, h]
            | none =>
                simp [stepState, auth_for_project_miss h2 hl]
                exact lookupClient_append_some h
      | none => simpa [stepState, auth_for_project] using h
      | int n => simpa [stepState, auth_for_project] using h
      | dict es => simpa [stepState, auth_for_project] using h
  | getProj => simpa [stepState] using h
  | updateProj _ => simpa [stepState] using h

theorem runOps_preserves_lookup {st : ServiceState} {s : String} {c : AuthClient}
    (ops : List ServiceOp) (h : lookupClient st.project_clients s = some c) :
    lookupClient (runOps st ops).project_clients s = some c := by
  induction ops generalizing st with
  | nil => simpa [runOps] using h
  | cons op rest ih =>
      simp only [runOps, List.foldl_cons]
      exact ih (stepState_preserves_lookup op h)

theorem runRepeated_hit {st : ServiceState} {s : String} {c : AuthClient}
    (hs : s.isEmpty = false) (h : lookupClient st.project_clients s = some c)
    (n : Nat) :
    runRepeated st (PyVal.str s) n = (List.replicate n (Except.ok c), st) := by
  induction n with
  | zero => simp [runRepeated]
  | succ n ih =>
      simp [runRepeated, auth_for_project_hit hs h, ih, List.replicate_succ]

theorem dictGet_eq_none_of_not_contains {entries : List (String × PyVal)} {k : String}
    (h : dictContains entries k = false) : dictGet entries k = PyVal.none := by
  induction entries with
  | nil => rfl
  | cons e rest ih =>
      obtain ⟨k2, v⟩ := e
      simp only [dictContains, List.any_cons, Bool.or_eq_false_iff] at h
      simp only [dictGet, h.1, if_false]
      exact ih (by simpa [dictContains] using h.2)

/-- Claim C3: a call to `update_project` in which no updatable field is
supplied (`mfa` is None/absent) raises `ValueError` with the message
`At least one parameter must be specified for update.` and issues no
request at all: the error is raised before any request. -/
theorem update_project_no_fields_raises
    (transport : Request → Except TransportError PyVal)
    (handle_auth_backend_error : TransportError → PyError)
    (convertProjectAuthPayloadToUser : PyVal → PyVal)
    (validate_mfa_config : PyVal → Except PyError PyVal) :
    update_project transport handle_auth_backend_error convertProjectAuthPayloadToUser
        validate_mfa_config Option.none
      = ([], Except.error
          (PyError.valueError "At least one parameter must be specified for update.")) := by
  rfl

/-- Claim C6: the `Project` constructor fails with `ValueError` exactly
when the input is not a dict or the dict lacks the key `name`:
construction succeeds iff the input is a dict containing `name`, every
failure is a `ValueError`, `Project({})` raises `ValueError`, and when
`name` is present the constructor stores the record and `project_id`
reads that field. -/
theorem project_init_validation :
    (∀ d : PyVal, (∃ p, Project.init d = Except.ok p) ↔
        ∃ entries, d = PyVal.dict entries ∧ dictContains entries "name" = true) ∧
    (∀ d : PyVal, (¬ ∃ p, Project.init d = Except.ok p) →
        ∃ msg, Project.init d = Except.error (PyError.valueError msg)) ∧
    Project.init (PyVal.dict [])
      = Except.error (PyError.valueError "Project response missing required keys.") ∧
    (∀ entries : List (String × PyVal), dictContains entries "name" = true →
        Project.init (PyVal.dict entries) = Except.ok { data := entries } ∧
        Project.project_id { data := entries } = dictGet entries "name") := by
  refine ⟨?_, ?_, rfl, ?_⟩
  · intro d
    cases d with
    | none => simp [Project.init]
    | str s => simp [Project.init]
    | int n => simp [Project.init]
    | dict entries =>
        by_cases hc : dictContains entries "name"
        · simp [Project.init, hc]
        · simp [Project.init, hc]
  · intro d hne
    cases d with
    | none => exact ⟨_, rfl⟩
    | str s => exact ⟨_, rfl⟩
    | int n => exact ⟨_, rfl⟩
    | dict entries =>
        by_cases hc : dictContains entries "name"
        · exact absurd ⟨{ data := entries }, by simp [Project.init, hc]⟩ hne
        · exact ⟨"Project response missing required keys.", by simp [Project.init, hc]⟩
  · intro entries hc
    exact ⟨by simp [Project.init, hc], rfl⟩

/-- Claim C6 witness: a record containing `name` constructs successfully
and `project_id` reads that field. -/
theorem project_init_validation_witness :
    Project.init (PyVal.dict [("name", PyVal.str "projects/p1")])
        = Except.ok { data := [("name", PyVal.str "projects/p1")] } ∧
      Project.project_id { data := [("name", PyVal.str "projects/p1")] }
        = dictGet [("name", PyVal.str "projects/p1")] "name" :=
  project_init_validation.2.2.2 [("name", PyVal.str "projects/p1")] rfl

/-- Claim C7: `Project.mfa` is `None` exactly when the nested
`multiFactorConfig` field is missing or falsy, and otherwise is the
`MultiFactorConfig` decoded from that field; in this embedding `mfa` is a
pure function of the stored record, so reading it cannot mutate the
project. -/
theorem project_mfa_decode (p : Project) :
    (Project.mfa p = Option.none
        ↔ (dictGet p.data "multiFactorConfig").truthy = false) ∧
    ((dictGet p.data "multiFactorConfig").truthy = true →
        Project.mfa p = some { data := dictGet p.data "multiFactorConfig" }) ∧
    (dictContains p.data "multiFactorConfig" = false → Project.mfa p = Option.none) := by
  refine ⟨?_, ?_, ?_⟩
  · by_cases ht : (dictGet p.data "multiFactorConfig").truthy
    · simp [Project.mfa, ht]
    · simp [Project.mfa, ht]
  · intro ht
    simp [Project.mfa, ht]
  · intro hc
    simp [Project.mfa, dictGet_eq_none_of_not_contains hc, PyVal.truthy]

/-- Claim C7 witness: a record without a `multiFactorConfig` field has an
absent `mfa`. -/
theorem project_mfa_decode_witness :
    Project.mfa { data := [("name", PyVal.str "projects/p1")] } = Option.none :=
  (project_mfa_decode { data := [("name", PyVal.str "projects/p1")] }).2.2 rfl

/-- Claim C10: the constructor checks only the presence of the `name`
key, never its value: a record whose `name` field holds any value, even a
falsy one such as None or the empty string, constructs successfully and
`project_id` returns that value, so a constructed `Project` may carry an
empty or None identifier. -/
theorem project_init_accepts_falsy_name :
    (∀ v : PyVal, Project.init (PyVal.dict [("name", v)])
          = Except.ok { data := [("name", v)] } ∧
        Project.project_id { data := [("name", v)] } = v) ∧
    Project.project_id { data := [("name", PyVal.none)] } = PyVal.none ∧
    Project.project_id { data := [("name", PyVal.str "")] } = PyVal.str "" ∧
    PyVal.none.truthy = false ∧ (PyVal.str "").truthy = false := by
  refine ⟨?_, rfl, rfl, rfl, rfl⟩
  intro v
  exact ⟨by simp [Project.init, dictContains], by simp [Project.project_id, dictGet]⟩

/-- Claim C2: `update_project` with a valid `mfa` value issues exactly
one PATCH request whose query parameter is exactly `updateMask=mfa` and
whose JSON body is the one-key dict mapping `mfa` to the validated value;
in general the mask is the comma-join of exactly the payload's top-level
keys in payload order. -/
theorem update_project_patch_request
    (transport : Request → Except TransportError PyVal)
    (handle_auth_backend_error : TransportError → PyError)
    (convertProjectAuthPayloadToUser : PyVal → PyVal)
    (validate_mfa_config : PyVal → Except PyError PyVal)
    (v v2 : PyVal) (hv : validate_mfa_config v = Except.ok v2) :
    (update_project transport handle_auth_backend_error convertProjectAuthPayloadToUser
        validate_mfa_config (some v)).fst
      = [{ method := "patch", url := "",
           json := some (PyVal.dict [("mfa", v2)]),
           params := some "updateMask=mfa" }] ∧
    (∀ payload : List (String × PyVal),
        String.intercalate "," (build_update_mask payload)
          = String.intercalate "," (payload.map Prod.fst)) := by
  constructor
  · have hmask : ("updateMask=" ++ String.intercalate "," (build_update_mask [("mfa", v2)]))
        = "updateMask=mfa" := rfl
    simp only [update_project, hv, Except.map, List.isEmpty_cons, hmask]
    simp only [Bool.false_eq_true, if_false]
    split <;> rfl
  · intro payload
    rfl

/-- Claim C2 witness: a concrete valid update issues the expected PATCH
request. -/
theorem update_project_patch_request_witness :
    (update_project (fun _ => Except.ok PyVal.none)
        (fun e => PyError.firebaseError e.detail) (fun b => b)
        (fun x => Except.ok x) (some (PyVal.int 1))).fst
      = [{ method := "patch", url := "",
           json := some (PyVal.dict [("mfa", PyVal.int 1)]),
           params := some "updateMask=mfa" }] :=
  (update_project_patch_request (fun _ => Except.ok PyVal.none)
      (fun e => PyError.firebaseError e.detail) (fun b => b)
      (fun x => Except.ok x) (PyVal.int 1) (PyVal.int 1) rfl).1

/-- Claim C8: on a successful transport read, `get_project` writes the
raw converted payload to standard output; the write happens on the
success path of every call, before the `Project` construction (it occurs
even if the construction then fails), and the returned value is the
`Project` built from that same converted payload. -/
theorem get_project_prints_converted_payload
    (transport : Request → Except TransportError PyVal)
    (handle_auth_backend_error : TransportError → PyError)
    (convertProjectAuthPayloadToUser : PyVal → PyVal)
    (body : PyVal)
    (ht : transport { method := "get", url := "", json := Option.none, params := Option.none }
            = Except.ok body) :
    get_project transport handle_auth_backend_error convertProjectAuthPayloadToUser
      = ([{ method := "get", url := "", json := Option.none, params := Option.none }],
         [convertProjectAuthPayloadToUser body],
         Project.init (convertProjectAuthPayloadToUser body)) := by
  simp [get_project, ht]

/-- Claim C8 witness: a stubbed transport returning a record makes
`get_project` print the converted record. -/
theorem get_project_prints_converted_payload_witness :
    get_project (fun _ => Except.ok (PyVal.dict [("name", PyVal.str "projects/p1")]))
        (fun e => PyError.firebaseError e.detail) (fun b => b)
      = ([{ method := "get", url := "", json := Option.none, params := Option.none }],
         [PyVal.dict [("name", PyVal.str "projects/p1")]],
         Project.init (PyVal.dict [("name", PyVal.str "projects/p1")])) :=
  get_project_prints_converted_payload (fun _ => Except.ok (PyVal.dict [("name", PyVal.str "projects/p1")]))
    (fun e => PyError.firebaseError e.detail) (fun b => b)
    (PyVal.dict [("name", PyVal.str "projects/p1")]) rfl

/-- Claim C4: `auth_for_project` with a `project_id` that is None, the
empty string, or not a string (e.g. the integer 123) raises `ValueError`
before touching anything, leaving the client mapping unchanged, while any
non-empty string passes the validation and yields a client. -/
theorem auth_for_project_invalid_id (st : ServiceState) :
    (auth_for_project st PyVal.none
        = Except.error (PyError.valueError
            "Invalid project ID: None. Project ID must be a non-empty string.") ∧
     auth_for_project st (PyVal.str "")
        = Except.error (PyError.valueError
            "Invalid project ID: . Project ID must be a non-empty string.") ∧
     auth_for_project st (PyVal.int 123)
        = Except.error (PyError.valueError
            "Invalid project ID: 123. Project ID must be a non-empty string.")) ∧
    (∀ pid e, auth_for_project st pid = Except.error e →
        stepState st (ServiceOp.authFor pid) = st) ∧
    (∀ s : String, s.isEmpty = false →
        ∃ r, auth_for_project st (PyVal.str s) = Except.ok r) := by
  refine ⟨⟨rfl, rfl, rfl⟩, ?_, ?_⟩
  · intro pid e h
    simp [stepState, h]
  · intro s hs
    cases hl : lookupClient st.project_clients s with
    | some c => exact ⟨(c, st), auth_for_project_hit hs hl⟩
    | none => exact ⟨_, auth_for_project_miss hs hl⟩

/-- Claim C4 witness: a non-empty string project ID is accepted. -/
theorem auth_for_project_invalid_id_witness :
    ∃ r, auth_for_project { project_clients := [], nextObjId := 0 } (PyVal.str "p1")
        = Except.ok r :=
  (auth_for_project_invalid_id { project_clients := [], nextObjId := 0 }).2.2 "p1" rfl

/-- Claim C5: on a transport failure both `get_project` and
`update_project` raise exactly the domain error produced by the external
error-mapping collaborator, after issuing exactly one request (no retry,
no swallowed error); a failure the collaborator maps to not-found
surfaces as a project-not-found error from either operation. -/
theorem transport_error_propagation
    (transport : Request → Except TransportError PyVal)
    (handle_auth_backend_error : TransportError → PyError)
    (convertProjectAuthPayloadToUser : PyVal → PyVal)
    (validate_mfa_config : PyVal → Except PyError PyVal)
    (v v2 : PyVal) (err : TransportError)
    (hv : validate_mfa_config v = Except.ok v2)
    (ht : ∀ r, transport r = Except.error err) :
    ((get_project transport handle_auth_backend_error
          convertProjectAuthPayloadToUser).1.length = 1 ∧
     (get_project transport handle_auth_backend_error
          convertProjectAuthPayloadToUser).2.2
        = Except.error (handle_auth_backend_error err)) ∧
    ((update_project transport handle_auth_backend_error convertProjectAuthPayloadToUser
          validate_mfa_config (some v)).1.length = 1 ∧
     (update_project transport handle_auth_backend_error convertProjectAuthPayloadToUser
          validate_mfa_config (some v)).2
        = Except.error (handle_auth_backend_error err)) ∧
    (∀ msg, handle_auth_backend_error err = PyError.projectNotFound msg →
        (get_project transport handle_auth_backend_error
              convertProjectAuthPayloadToUser).2.2
            = Except.error (PyError.projectNotFound msg) ∧
        (update_project transport handle_auth_backend_error convertProjectAuthPayloadToUser
              validate_mfa_config (some v)).2
            = Except.error (PyError.projectNotFound msg)) := by
  have hg : get_project transport handle_auth_backend_error convertProjectAuthPayloadToUser
      = ([{ method := "get", url := "", json := Option.none, params := Option.none }], [],
         Except.error (handle_auth_backend_error err)) := by
    simp [get_project, ht]
  have hu : update_project transport handle_auth_backend_error convertProjectAuthPayloadToUser
        validate_mfa_config (some v)
      = ([{ method := "patch", url := "", json := some (PyVal.dict [("mfa", v2)]),
            params := some "updateMask=mfa" }],
         Except.error (handle_auth_backend_error err)) := by
    have hmask : ("updateMask=" ++ String.intercalate "," (build_update_mask [("mfa", v2)]))
        = "updateMask=mfa" := rfl
    simp [update_project, hv, Except.map, hmask, ht]
  refine ⟨⟨by rw [hg]; rfl, by rw [hg]⟩, ⟨by rw [hu]; rfl, by rw [hu]⟩, ?_⟩
  intro msg hm
  exact ⟨by rw [hg, hm], by rw [hu, hm]⟩

/-- Claim C5 witness: a stubbed transport that always fails, with an
error mapping to project-not-found, makes both operations raise the
project-not-found error. -/
theorem transport_error_propagation_witness :
    (get_project (fun _ => Except.error { detail := "boom" })
          (fun e => PyError.projectNotFound e.detail) (fun b => b)).2.2
        = Except.error (PyError.projectNotFound "boom") ∧
    (update_project (fun _ => Except.error { detail := "boom" })
          (fun e => PyError.projectNotFound e.detail) (fun b => b)
          (fun x => Except.ok x) (some (PyVal.int 1))).2
        = Except.error (PyError.projectNotFound "boom") :=
  (transport_error_propagation (fun _ => Except.error { detail := "boom" })
      (fun e => PyError.projectNotFound e.detail) (fun b => b)
      (fun x => Except.ok x) (PyVal.int 1) (PyVal.int 1) { detail := "boom" }
      rfl (fun _ => rfl)).2.2 "boom" rfl

/-- Claim C1: for a non-empty project ID the cache is a create-once
mapping: a hit returns the cached client with the state unchanged (no new
client constructed), a miss constructs exactly one fresh client
(`nextObjId` advances by one), inserts it, and a repeated call returns
that same instance again; calls with distinct IDs return distinct
instances; and an entry, once present, survives every further operation
of the service. -/
theorem auth_for_project_cache_invariant
    (st : ServiceState) (s : String) (hW : WFState st) (hs : s.isEmpty = false) :
    (∀ c, lookupClient st.project_clients s = some c →
        auth_for_project st (PyVal.str s) = Except.ok (c, st)) ∧
    (lookupClient st.project_clients s = Option.none →
        ∃ c st2, auth_for_project st (PyVal.str s) = Except.ok (c, st2) ∧
          lookupClient st2.project_clients s = some c ∧
          st2.nextObjId = st.nextObjId + 1 ∧
          auth_for_project st2 (PyVal.str s) = Except.ok (c, st2)) ∧
    (∀ s2 c c2 st2 st3, s2.isEmpty = false → s2 ≠ s →
        auth_for_project st (PyVal.str s) = Except.ok (c, st2) →
        auth_for_project st2 (PyVal.str s2) = Except.ok (c2, st3) →
        c ≠ c2) ∧
    (∀ ops c, lookupClient st.project_clients s = some c →
        lookupClient (runOps st ops).project_clients s = some c) := by
  refine ⟨?_, ?_, ?_, ?_⟩
  · intro c hc
    exact auth_for_project_hit hs hc
  · intro hmiss
    refine ⟨{ objId := st.nextObjId, project_id := s },
      { project_clients :=
          st.project_clients ++ [(s, { objId := st.nextObjId, project_id := s })],
        nextObjId := st.nextObjId + 1 },
      auth_for_project_miss hs hmiss, ?_, rfl, ?_⟩
    · show lookupClient (st.project_clients
          ++ [(s, { objId := st.nextObjId, project_id := s })]) s = some _
      rw [lookupClient_append_none hmiss]
      simp [lookupClient]
    · apply auth_for_project_hit hs
      show lookupClient (st.project_clients
          ++ [(s, { objId := st.nextObjId, project_id := s })]) s = some _
      rw [lookupClient_append_none hmiss]
      simp [lookupClient]
  · intro s2 c c2 st2 st3 hs2 hne h1 h2
    obtain ⟨hp1, hW2⟩ := auth_for_project_ok_wf hW h1
    obtain ⟨hp2, _⟩ := auth_for_project_ok_wf hW2 h2
    intro heq
    exact hne (by rw [← hp2, ← heq, hp1])
  · intro ops c hc
    exact runOps_preserves_lookup ops hc

/-- Claim C1 witness: from an empty cache, a first call for `p1` creates
and inserts one client and a repeated call returns it unchanged. -/
theorem auth_for_project_cache_invariant_witness :
    ∃ c st2, auth_for_project { project_clients := [], nextObjId := 0 } (PyVal.str "p1")
        = Except.ok (c, st2) ∧
      lookupClient st2.project_clients "p1" = some c ∧
      st2.nextObjId = 0 + 1 ∧
      auth_for_project st2 (PyVal.str "p1") = Except.ok (c, st2) :=
  (auth_for_project_cache_invariant { project_clients := [], nextObjId := 0 } "p1"
      (by intro s3 c3 h3; simp [lookupClient] at h3) rfl).2.1 rfl

/-- Claim C9: the whole check-then-insert of `auth_for_project` is one
critical section under the service mutex, so `n` concurrent calls with
the same previously unseen non-empty project ID serialize into `n`
sequential critical sections: exactly one client is constructed
(`nextObjId` advances by one in total) and all `n` callers receive that
same instance. -/
theorem auth_for_project_concurrent_once
    (st : ServiceState) (s : String) (n : Nat)
    (hs : s.isEmpty = false) (hm : lookupClient st.project_clients s = Option.none)
    (hn : 1 ≤ n) :
    ∃ c st2, runRepeated st (PyVal.str s) n = (List.replicate n (Except.ok c), st2) ∧
      lookupClient st2.project_clients s = some c ∧
      st2.nextObjId = st.nextObjId + 1 := by
  obtain ⟨m, rfl⟩ : ∃ m, n = m + 1 := ⟨n - 1, (Nat.succ_pred_eq_of_pos hn).symm⟩
  have h1 : auth_for_project st (PyVal.str s)
      = Except.ok ({ objId := st.nextObjId, project_id := s },
          { project_clients :=
              st.project_clients ++ [(s, { objId := st.nextObjId, project_id := s })],
            nextObjId := st.nextObjId + 1 }) :=
    auth_for_project_miss hs hm
  have hlook : lookupClient
      (st.project_clients ++ [(s, { objId := st.nextObjId, project_id := s })]) s
      = some { objId := st.nextObjId, project_id := s } := by
    rw [lookupClient_append_none hm]
    simp [lookupClient]
  refine ⟨{ objId := st.nextObjId, project_id := s },
    { project_clients :=
        st.project_clients ++ [(s, { objId := st.nextObjId, project_id := s })],
      nextObjId := st.nextObjId + 1 }, ?_, hlook, rfl⟩
  simp only [runRepeated, h1]
  rw [runRepeated_hit hs hlook m]
  simp [List.replicate_succ]

/-- Claim C9 witness: three serialized calls for the unseen ID `p1` from
an empty cache construct exactly one client and all three receive it. -/
theorem auth_for_project_concurrent_once_witness :
    ∃ c st2, runRepeated { project_clients := [], nextObjId := 0 } (PyVal.str "p1") 3
        = (List.replicate 3 (Except.ok c), st2) ∧
      lookupClient st2.project_clients "p1" = some c ∧
      st2.nextObjId = 0 + 1 :=
  auth_for_project_concurrent_once { project_clients := [], nextObjId := 0 } "p1" 3
    rfl rfl (by decide)

end ProjectConfigMgt
